import Mathlib

/-
Verification of the JPEG-to-WEBP conversion pipeline in src/app.py.

The pipeline convert_to_webp takes an ordered sequence of uploaded files,
sanitizes each filename, filters by extension (.jpg / .jpeg,
case-insensitive), converts accepted streams to WEBP, and collects the
results into an in-memory ZIP archive together with ordered lists of
success names and failure messages.

External collaborators are modelled explicitly:
- werkzeug.utils.secure_filename (the filename sanitizer),
- pathlib.PurePath.suffix / .stem (extension splitting),
- zipfile.ZipFile (an in-memory list of named entries plus a closed flag),
- PIL decode / re-encode: its behavior on a given upload stream is carried
  as data on the upload (either the encoded WEBP bytes or the raised
  exception), since the image codec itself is outside the repository.
-/

namespace WebpApp

/-- Byte buffers are modelled as lists of byte values. -/
abbrev Bytes := List Nat

/-- Whitespace characters recognized by Python str.split with no arguments,
restricted to the ASCII range: tab through carriage return (9-13), the four
separator control characters (28-31), and space (32). -/
def isPySpace (c : Char) : Bool :=
  decide (c.toNat = 32 ∨ (9 ≤ c.toNat ∧ c.toNat ≤ 13) ∨ (28 ≤ c.toNat ∧ c.toNat ≤ 31))

/-- Characters kept by werkzeug's sanitizing regular expression
[A-Za-z0-9_.-]; every other character is removed. -/
def isSecureChar (c : Char) : Bool :=
  decide ((65 ≤ c.toNat ∧ c.toNat ≤ 90) ∨ (97 ≤ c.toNat ∧ c.toNat ≤ 122) ∨
    (48 ≤ c.toNat ∧ c.toNat ≤ 57) ∨ c = '_' ∨ c = '.' ∨ c = '-')

/-- Helper for pySplit: accumulates the current word (reversed) while
scanning the character list. -/
def pySplitAux : List Char → List Char → List (List Char)
  | [], cur => if cur.isEmpty then [] else [cur.reverse]
  | c :: rest, cur =>
    if isPySpace c then
      if cur.isEmpty then pySplitAux rest [] else cur.reverse :: pySplitAux rest []
    else pySplitAux rest (c :: cur)

/-- Split a character list on runs of Python whitespace, dropping empty
pieces: the behavior of str.split with no arguments. -/
def pySplit (cs : List Char) : List (List Char) := pySplitAux cs []

/-- Characters removed from both ends by the final strip step of
secure_filename: dot and underscore. -/
def isStripChar (c : Char) : Bool := c == '.' || c == '_'

/-- Remove leading and trailing dots and underscores, modelling the Python
call str.strip with argument "._". -/
def stripDotUnderscore (l : List Char) : List Char :=
  List.reverse (List.dropWhile isStripChar (List.reverse (List.dropWhile isStripChar l)))

/-- Modelled from werkzeug.utils.secure_filename on a POSIX system (the
sanitizer called at src/app.py line 115): project to ASCII, replace the
path separator by a space, split on whitespace and join the pieces with
underscores, remove every character outside [A-Za-z0-9_.-], and strip
leading and trailing dots and underscores. The NFKD decomposition that
werkzeug applies before the ASCII projection is not modelled: non-ASCII
characters are simply dropped, as the ASCII encoder with errors ignored
does. -/
def secure_filename (filename : String) : String :=
  let ascii := filename.data.filter (fun c => decide (c.toNat ≤ 127))
  let nosep := ascii.map (fun c => if c = '/' then ' ' else c)
  let joined := List.intercalate [('_' : Char)] (pySplit nosep)
  String.mk (stripDotUnderscore (joined.filter isSecureChar))

/-- Index of the last dot in a character list: Python str.rfind applied to
a dot, returned as an Option instead of the sentinel -1. -/
def rfindDotIdx (cs : List Char) : Option Nat :=
  match List.findIdx? (fun c => c == '.') cs.reverse with
  | some j => some (cs.length - 1 - j)
  | none => none

/-- Modelled from pathlib.PurePath.suffix for a path with no separators
(the sanitized filename contains none): the final dot-led segment, empty
when the last dot is at position 0, absent, or the final character. -/
def pathSuffix (s : String) : String :=
  match rfindDotIdx s.data with
  | some i => if 0 < i ∧ i < s.data.length - 1 then String.mk (s.data.drop i) else ""
  | none => ""

/-- Modelled from pathlib.PurePath.stem for a path with no separators: the
name with its suffix removed (the whole name when there is no suffix). -/
def pathStem (s : String) : String :=
  match rfindDotIdx s.data with
  | some i => if 0 < i ∧ i < s.data.length - 1 then String.mk (s.data.take i) else s
  | none => s

/-- ASCII lowercasing: str.lower on the ASCII-only strings produced by the
sanitizer. -/
def pyLower (s : String) : String := String.mk (s.data.map Char.toLower)

/-- The allowed extensions (src/app.py line 27). -/
def ALLOWED_SUFFIXES : List String := [".jpg", ".jpeg"]

/-- The exceptions convert_single_stream is documented to raise (spec 4.2
and 7: unparsable image bytes or an I/O error while reading) and that the
pipeline catches at src/app.py line 123. Python str applied to the
exception yields the carried message. -/
inductive PyExc where
  | unidentifiedImageError (msg : String)
  | osError (msg : String)
deriving DecidableEq

/-- The text Python interpolates for the exception in an f-string. -/
def PyExc.str : PyExc → String
  | PyExc.unidentifiedImageError m => m
  | PyExc.osError m => m

/-- An uploaded file (werkzeug FileStorage): its original filename, which
may be absent, and the outcome PIL produces on its stream: either the
re-encoded WEBP bytes or the raised exception. The codec is an external
library, so its outcome is carried as data. -/
instance : DecidableEq (Except PyExc Bytes) := fun a b =>
  match a, b with
  | Except.ok x, Except.ok y =>
    if h : x = y then isTrue (by rw [h]) else isFalse (by intro he; cases he; exact h rfl)
  | Except.ok _, Except.error _ => isFalse (by intro he; cases he)
  | Except.error _, Except.ok _ => isFalse (by intro he; cases he)
  | Except.error x, Except.error y =>
    if h : x = y then isTrue (by rw [h]) else isFalse (by intro he; cases he; exact h rfl)

structure FileStorage where
  filename : Option String
  decoded : Except PyExc Bytes
deriving DecidableEq

/-- Embedding of convert_single_stream (src/app.py lines 147-154): seek to
the start, decode with PIL, normalize to RGB, re-encode as WEBP. The PIL
steps are external; the upload carries their outcome. -/
def convert_single_stream (upload : FileStorage) : Except PyExc Bytes :=
  upload.decoded

/-- An in-memory ZIP writer: the ordered list of written entries and
whether the writer has been closed (the archive finalized). -/
structure ZipWriter where
  entries : List (String × Bytes)
  closed : Bool
deriving DecidableEq

/-- A freshly opened writer on an empty buffer (ZipFile in write mode). -/
def ZipWriter.new : ZipWriter := ZipWriter.mk [] false

/-- ZipFile.writestr appends a new entry under the given name; duplicate
names are written as additional entries, never deduplicated or renamed. -/
def ZipWriter.writestr (z : ZipWriter) (name : String) (data : Bytes) : ZipWriter :=
  ZipWriter.mk (z.entries ++ [(name, data)]) z.closed

/-- Closing the writer finalizes the archive buffer (the exit of the
Python with-block). -/
def ZipWriter.close (z : ZipWriter) : ZipWriter :=
  ZipWriter.mk z.entries true

/-- The triple convert_to_webp returns: success names, failure messages,
and the archive buffer. -/
structure ConversionReport where
  successes : List String
  failures : List String
  archive : ZipWriter
deriving DecidableEq

/-- Python's fallback idiom for the display name: the empty string is
falsy, so an empty filename displays as the literal Unknown. -/
def pyOrUnknown (filename : String) : String :=
  if filename = "" then "Unknown" else filename

/-- One iteration of the loop in convert_to_webp (src/app.py lines
114-129): sanitize the filename, reject a disallowed extension with an
unsupported-file-type failure, otherwise convert the stream, catching a
decode failure as a failure message, and on success write the entry and
record the output name. -/
def convertStep (acc : List String × List String × ZipWriter) (upload : FileStorage) :
    List String × List String × ZipWriter :=
  let successes := acc.1
  let failures := acc.2.1
  let zipped := acc.2.2
  let filename := secure_filename (upload.filename.getD (""))
  let suffix := pyLower (pathSuffix filename)
  if (ALLOWED_SUFFIXES.contains suffix) = false then
    (successes, failures ++ [pyOrUnknown filename ++ ": unsupported file type"], zipped)
  else
    match convert_single_stream upload with
    | Except.error exc =>
      (successes, failures ++ [pyOrUnknown filename ++ ": " ++ exc.str], zipped)
    | Except.ok webp_bytes =>
      let webp_name := pathStem filename ++ ".webp"
      (successes ++ [webp_name], failures, zipped.writestr webp_name webp_bytes)

/-- Embedding of convert_to_webp (src/app.py lines 106-131): start with
empty result lists and a fresh writer, process the uploads in order, and
close the writer on exit of the with-block before returning. -/
def convert_to_webp (uploads : List FileStorage) : ConversionReport :=
  let out := uploads.foldl convertStep ([], [], ZipWriter.new)
  ConversionReport.mk out.1 out.2.1 (ZipWriter.close out.2.2)

/-- The sanitized filename of an upload (src/app.py line 115). -/
def sanitized (u : FileStorage) : String := secure_filename (u.filename.getD (""))

/-- Whether an upload passes the extension filter (src/app.py lines
116-117). -/
def entryAccepted (u : FileStorage) : Bool :=
  ALLOWED_SUFFIXES.contains (pyLower (pathSuffix (sanitized u)))

/-- Whether an Except value is a success. -/
def exceptOk {ε α : Type} : Except ε α → Bool
  | Except.ok _ => true
  | Except.error _ => false

/-- Whether an upload converts successfully: allowed extension and
decodable bytes. -/
def entrySucceeds (u : FileStorage) : Bool :=
  entryAccepted u && exceptOk (convert_single_stream u)

/-- The output name a successful upload contributes (src/app.py line
127). -/
def successName (u : FileStorage) : String := pathStem (sanitized u) ++ ".webp"

/-- The encoded bytes of a successful upload. -/
def entryBytes (u : FileStorage) : Bytes :=
  match convert_single_stream u with
  | Except.ok b => b
  | Except.error _ => []

/-- The failure message a failing upload contributes (src/app.py lines
118 and 124). -/
def failureMsg (u : FileStorage) : String :=
  if entryAccepted u = false then pyOrUnknown (sanitized u) ++ ": unsupported file type"
  else
    match convert_single_stream u with
    | Except.error exc => pyOrUnknown (sanitized u) ++ ": " ++ exc.str
    | Except.ok _ => pyOrUnknown (sanitized u)

/-- The success names the pipeline produces, characterized per entry. -/
def pipeSuccs (us : List FileStorage) : List String :=
  (us.filter entrySucceeds).map successName

/-- The failure messages the pipeline produces, characterized per entry. -/
def pipeFails (us : List FileStorage) : List String :=
  (us.filter (fun u => !(entrySucceeds u))).map failureMsg

/-- The archive entries the pipeline produces, characterized per entry. -/
def pipeEntries (us : List FileStorage) : List (String × Bytes) :=
  (us.filter entrySucceeds).map (fun u => (successName u, entryBytes u))

/-- One loop iteration, written per entry: a succeeding upload appends its
output name and archive entry, a failing upload appends its failure
message; nothing else changes. -/
theorem convertStep_eq (s f : List String) (z : ZipWriter) (u : FileStorage) :
    convertStep (s, f, z) u =
      if entrySucceeds u = true then
        (s ++ [successName u], f,
          ZipWriter.mk (z.entries ++ [(successName u, entryBytes u)]) z.closed)
      else (s, f ++ [failureMsg u], z) := by
  simp only [convertStep, entrySucceeds, entryAccepted, sanitized, successName, failureMsg,
    entryBytes, ZipWriter.writestr]
  cases h : ALLOWED_SUFFIXES.contains (pyLower (pathSuffix (secure_filename (u.filename.getD ("")))))
  · simp [h]
  · cases hd : convert_single_stream u
    · simp [h, hd, exceptOk]
    · simp [h, hd, exceptOk]

/-- The loop is an append homomorphism: starting from any accumulator, it
appends exactly the per-entry characterizations. -/
theorem foldl_convertStep (us : List FileStorage) :
    ∀ (s f : List String) (z : ZipWriter),
      us.foldl convertStep (s, f, z) =
        (s ++ pipeSuccs us, f ++ pipeFails us,
          ZipWriter.mk (z.entries ++ pipeEntries us) z.closed) := by
  induction us with
  | nil =>
    intro s f z
    simp [pipeSuccs, pipeFails, pipeEntries]
  | cons u rest ih =>
    intro s f z
    rw [List.foldl_cons, convertStep_eq]
    cases h : entrySucceeds u
    · rw [if_neg (by simp), ih]
      simp [pipeSuccs, pipeFails, pipeEntries, List.filter_cons, h, List.append_assoc]
    · rw [if_pos rfl, ih]
      simp [pipeSuccs, pipeFails, pipeEntries, List.filter_cons, h, List.append_assoc]

/-- Full characterization of the pipeline: the result lists and the
archive are the per-entry maps over the input, and the archive is
closed. -/
theorem convert_to_webp_eq (us : List FileStorage) :
    convert_to_webp us =
      ConversionReport.mk (pipeSuccs us) (pipeFails us) (ZipWriter.mk (pipeEntries us) true) := by
  unfold convert_to_webp
  rw [foldl_convertStep us [] [] ZipWriter.new]
  simp [ZipWriter.new, ZipWriter.close]

/-- Stripping dots and underscores from the ends never adds characters. -/
theorem mem_stripDotUnderscore {c : Char} {l : List Char}
    (h : c ∈ stripDotUnderscore l) : c ∈ l := by
  simp only [stripDotUnderscore] at h
  have h1 := List.mem_reverse.mp h
  have h2 := (List.dropWhile_sublist _).mem h1
  have h3 := List.mem_reverse.mp h2
  exact (List.dropWhile_sublist _).mem h3

/-- Every character of a sanitized filename lies in the kept class
[A-Za-z0-9_.-]. -/
theorem secure_filename_chars (s : String) :
    ∀ c ∈ (secure_filename s).data, isSecureChar c = true := by
  intro c hc
  have hc2 : c ∈ stripDotUnderscore (List.filter isSecureChar
      (List.intercalate [('_' : Char)]
        (pySplit ((s.data.filter (fun a => decide (a.toNat ≤ 127))).map
          (fun a => if a = '/' then ' ' else a))))) := hc
  exact (List.mem_filter.mp (mem_stripDotUnderscore hc2)).2

/-- The stem of a name is made of characters of that name. -/
theorem pathStem_chars (s : String) : ∀ c ∈ (pathStem s).data, c ∈ s.data := by
  intro c hc
  unfold pathStem at hc
  split at hc
  · split at hc
    · exact (List.take_sublist _ _).mem hc
    · exact hc
  · exact hc

/-- A success name never contains a colon: its stem consists of sanitized
characters and the forced extension has none. -/
theorem successName_no_colon (u : FileStorage) : (':' : Char) ∉ (successName u).data := by
  intro hmem
  have hd : (successName u).data = (pathStem (sanitized u)).data ++ (".webp").data := by
    unfold successName
    exact String.data_append _ _
  rw [hd] at hmem
  rcases List.mem_append.mp hmem with h | h
  · have h2 := pathStem_chars _ _ h
    have h3 := secure_filename_chars _ _ h2
    exact absurd h3 (by decide)
  · exact absurd h (by decide)

/-- Every failure message of a failing upload contains a colon, introduced
by the message template. -/
theorem failureMsg_has_colon (u : FileStorage) (h : entrySucceeds u = false) :
    (':' : Char) ∈ (failureMsg u).data := by
  unfold failureMsg
  cases ha : entryAccepted u with
  | false =>
    rw [if_pos rfl, String.data_append]
    exact List.mem_append.mpr (Or.inr (by decide))
  | true =>
    rw [if_neg (by simp)]
    cases hd : convert_single_stream u with
    | error exc =>
      show (':' : Char) ∈ (pyOrUnknown (sanitized u) ++ ": " ++ exc.str).data
      rw [String.data_append, String.data_append]
      exact List.mem_append.mpr (Or.inl (List.mem_append.mpr (Or.inr (by decide))))
    | ok b =>
      exact absurd h (by simp [entrySucceeds, ha, hd, exceptOk])

/-- Splitting a list by a Boolean predicate splits its length. -/
theorem length_filter_split (p : FileStorage → Bool) (us : List FileStorage) :
    (us.filter p).length + (us.filter (fun u => !(p u))).length = us.length := by
  induction us with
  | nil => rfl
  | cons u rest ih =>
    cases h : p u
    · simp only [List.filter_cons, h]
      simp
      omega
    · simp only [List.filter_cons, h]
      simp
      omega

/-- An upload rejected by the extension filter never converts. -/
theorem entrySucceeds_of_not_accepted {u : FileStorage} (h : entryAccepted u = false) :
    entrySucceeds u = false := by
  simp [entrySucceeds, h]

/-- The failure message of a rejected upload is the unsupported-file-type
template. -/
theorem failureMsg_of_not_accepted {u : FileStorage} (h : entryAccepted u = false) :
    failureMsg u = pyOrUnknown (sanitized u) ++ ": unsupported file type" := by
  unfold failureMsg
  rw [if_pos h]

/-- Acceptance depends only on the filename, not on the stream. -/
theorem entryAccepted_mk (u : FileStorage) (d : Except PyExc Bytes) :
    entryAccepted (FileStorage.mk u.filename d) = entryAccepted u := rfl

/-- C1: a failing entry never aborts the batch: wherever it sits in the
input, the pipeline still processes every other entry (successes and
archive entries are those of the remaining input), the failure is caught
and recorded as exactly one message in failures between the messages of
the surrounding entries, nothing propagates as a raised fault (the
pipeline is a total function into a report), and the archive is still
finalized. -/
theorem per_entry_failure_never_aborts (pre post : List FileStorage) (u : FileStorage)
    (h : entrySucceeds u = false) :
    (convert_to_webp (pre ++ u :: post)).successes = (convert_to_webp (pre ++ post)).successes ∧
    (convert_to_webp (pre ++ u :: post)).archive.entries =
      (convert_to_webp (pre ++ post)).archive.entries ∧
    (convert_to_webp (pre ++ u :: post)).failures =
      (convert_to_webp pre).failures ++ failureMsg u :: (convert_to_webp post).failures ∧
    (convert_to_webp (pre ++ u :: post)).archive.closed = true := by
  simp only [convert_to_webp_eq]
  refine ⟨?_, ?_, ?_, trivial⟩
  · simp [pipeSuccs, List.filter_append, List.filter_cons, h]
  · simp [pipeEntries, List.filter_append, List.filter_cons, h]
  · simp [pipeFails, List.filter_append, List.filter_cons, h]

/-- Witness for C1 at a concrete batch: a valid photo, a text file, and a
second valid photo; the text file is recorded once and the photos still
convert. -/
theorem per_entry_failure_never_aborts_witness :
    entrySucceeds (FileStorage.mk (some ("note.txt")) (Except.ok [2])) = false ∧
    (convert_to_webp [FileStorage.mk (some ("photo.jpg")) (Except.ok [1]),
        FileStorage.mk (some ("note.txt")) (Except.ok [2]),
        FileStorage.mk (some ("b.jpg")) (Except.ok [3])]).successes =
      (convert_to_webp [FileStorage.mk (some ("photo.jpg")) (Except.ok [1]),
        FileStorage.mk (some ("b.jpg")) (Except.ok [3])]).successes ∧
    (convert_to_webp [FileStorage.mk (some ("photo.jpg")) (Except.ok [1]),
        FileStorage.mk (some ("note.txt")) (Except.ok [2]),
        FileStorage.mk (some ("b.jpg")) (Except.ok [3])]).failures =
      (convert_to_webp [FileStorage.mk (some ("photo.jpg")) (Except.ok [1])]).failures ++
        failureMsg (FileStorage.mk (some ("note.txt")) (Except.ok [2])) ::
          (convert_to_webp [FileStorage.mk (some ("b.jpg")) (Except.ok [3])]).failures := by
  have h := per_entry_failure_never_aborts
    [FileStorage.mk (some ("photo.jpg")) (Except.ok [1])]
    [FileStorage.mk (some ("b.jpg")) (Except.ok [3])]
    (FileStorage.mk (some ("note.txt")) (Except.ok [2])) (by decide)
  exact ⟨by decide, h.1, h.2.2.1⟩

/-- C2: an entry whose sanitized filename has a disallowed lowercase
extension (including no extension and the empty sanitized name) is never
decoded — the report is unchanged when its stream outcome is replaced by
any other — and contributes exactly one failure, the sanitized name (or
the literal Unknown when empty) followed by the unsupported-file-type
text. -/
theorem unsupported_extension_rejected (pre post : List FileStorage) (u : FileStorage)
    (d : Except PyExc Bytes) (h : entryAccepted u = false) :
    (convert_to_webp (pre ++ u :: post)).failures =
      (convert_to_webp pre).failures ++
        (pyOrUnknown (sanitized u) ++ ": unsupported file type") ::
          (convert_to_webp post).failures ∧
    (convert_to_webp (pre ++ u :: post)).successes =
      (convert_to_webp (pre ++ post)).successes ∧
    convert_to_webp (pre ++ u :: post) =
      convert_to_webp (pre ++ FileStorage.mk u.filename d :: post) := by
  have hu2 : entryAccepted (FileStorage.mk u.filename d) = false := by
    rw [entryAccepted_mk]
    exact h
  have hs : entrySucceeds u = false := entrySucceeds_of_not_accepted h
  have hs2 : entrySucceeds (FileStorage.mk u.filename d) = false :=
    entrySucceeds_of_not_accepted hu2
  refine ⟨?_, ?_, ?_⟩
  · simp only [convert_to_webp_eq]
    simp [pipeFails, List.filter_append, List.filter_cons, hs, failureMsg_of_not_accepted h]
  · simp only [convert_to_webp_eq]
    simp [pipeSuccs, List.filter_append, List.filter_cons, hs]
  · simp only [convert_to_webp_eq]
    have e1 : pipeSuccs (pre ++ u :: post) =
        pipeSuccs (pre ++ FileStorage.mk u.filename d :: post) := by
      simp [pipeSuccs, List.filter_append, List.filter_cons, hs, hs2]
    have e2 : pipeFails (pre ++ u :: post) =
        pipeFails (pre ++ FileStorage.mk u.filename d :: post) := by
      simp [pipeFails, List.filter_append, List.filter_cons, hs, hs2,
        failureMsg_of_not_accepted h, failureMsg_of_not_accepted hu2, sanitized]
    have e3 : pipeEntries (pre ++ u :: post) =
        pipeEntries (pre ++ FileStorage.mk u.filename d :: post) := by
      simp [pipeEntries, List.filter_append, List.filter_cons, hs, hs2]
    rw [e1, e2, e3]

/-- Witness for C2: a text file between two photos is rejected with the
documented message and its stream outcome is irrelevant. -/
theorem unsupported_extension_rejected_witness :
    entryAccepted (FileStorage.mk (some ("note.txt")) (Except.ok [2])) = false ∧
    (convert_to_webp [FileStorage.mk (some ("photo.jpg")) (Except.ok [1]),
        FileStorage.mk (some ("note.txt")) (Except.ok [2])]).failures =
      (convert_to_webp [FileStorage.mk (some ("photo.jpg")) (Except.ok [1])]).failures ++
        (pyOrUnknown (sanitized (FileStorage.mk (some ("note.txt")) (Except.ok [2]))) ++
          ": unsupported file type") :: (convert_to_webp ([] : List FileStorage)).failures ∧
    convert_to_webp [FileStorage.mk (some ("photo.jpg")) (Except.ok [1]),
        FileStorage.mk (some ("note.txt")) (Except.ok [2])] =
      convert_to_webp [FileStorage.mk (some ("photo.jpg")) (Except.ok [1]),
        FileStorage.mk (some ("note.txt"))
          (Except.error (PyExc.osError ("read error")))] := by
  have h := unsupported_extension_rejected
    [FileStorage.mk (some ("photo.jpg")) (Except.ok [1])] []
    (FileStorage.mk (some ("note.txt")) (Except.ok [2]))
    (Except.error (PyExc.osError ("read error"))) (by decide)
  exact ⟨by decide, h.1, h.2.2⟩

/-- C3: of N input entries, exactly the M that pass the extension filter
with decodable bytes appear in successes, the other N minus M each
contribute one failure, and the archive holds exactly M entries. -/
theorem report_counts (us : List FileStorage) :
    (convert_to_webp us).successes.length = (us.filter entrySucceeds).length ∧
    (convert_to_webp us).successes.length + (convert_to_webp us).failures.length = us.length ∧
    (convert_to_webp us).archive.entries.length = (convert_to_webp us).successes.length := by
  simp only [convert_to_webp_eq]
  refine ⟨by simp [pipeSuccs], ?_, by simp [pipeSuccs, pipeEntries]⟩
  simp only [pipeSuccs, pipeFails, List.length_map]
  exact length_filter_split entrySucceeds us

/-- C4: the archive holds exactly one entry per element of successes, with
the same name and in the same order: the entry names read in order are
exactly the successes list. -/
theorem archive_names_match_successes (us : List FileStorage) :
    ((convert_to_webp us).archive.entries).map Prod.fst = (convert_to_webp us).successes := by
  simp only [convert_to_webp_eq]
  simp [pipeEntries, pipeSuccs, List.map_map, Function.comp]

/-- C5: every output filename in successes is the stem of the
corresponding input entry's sanitized filename with the extension forced
to .webp, in input order over the succeeding entries. -/
theorem success_names_forced_webp (us : List FileStorage) :
    (convert_to_webp us).successes =
      (us.filter entrySucceeds).map (fun u => pathStem (sanitized u) ++ ".webp") := by
  simp only [convert_to_webp_eq]
  rfl

/-- C6: no string is recorded both as a success and as a failure (success
names contain no colon while every failure message does), and each list is
the input-ordered map over its own entries, so per-list input order is
preserved independently. -/
theorem results_disjoint_and_ordered (us : List FileStorage) :
    (∀ x ∈ (convert_to_webp us).successes, x ∉ (convert_to_webp us).failures) ∧
    (convert_to_webp us).successes = (us.filter entrySucceeds).map successName ∧
    (convert_to_webp us).failures =
      (us.filter (fun u => !(entrySucceeds u))).map failureMsg := by
  simp only [convert_to_webp_eq]
  refine ⟨?_, rfl, rfl⟩
  intro x hx hx2
  rcases List.mem_map.mp hx with ⟨a, _, rfl⟩
  rcases List.mem_map.mp hx2 with ⟨b, hb, hfb⟩
  have hbf : entrySucceeds b = false := by
    have hmem := (List.mem_filter.mp hb).2
    simpa using hmem
  have h1 := successName_no_colon a
  have h2 := failureMsg_has_colon b hbf
  rw [hfb] at h2
  exact h1 h2

/-- Witness for C6: the one success of a concrete mixed batch does not
appear among its failures. -/
theorem results_disjoint_and_ordered_witness :
    ("photo.webp") ∉ (convert_to_webp [FileStorage.mk (some ("photo.jpg")) (Except.ok [1]),
      FileStorage.mk (some ("note.txt")) (Except.ok [2])]).failures :=
  (results_disjoint_and_ordered [FileStorage.mk (some ("photo.jpg")) (Except.ok [1]),
    FileStorage.mk (some ("note.txt")) (Except.ok [2])]).1 _ (by decide)

/-- C7: the empty input sequence yields empty successes, empty failures,
and a finalized empty archive, without crashing. -/
theorem empty_input_gives_empty_report :
    convert_to_webp [] = ConversionReport.mk [] [] (ZipWriter.mk [] true) := rfl

/-- C8: two succeeding entries whose sanitized filenames share a stem
produce two ZIP entries with the same name: the archive's name column
counts that name at least twice (duplicates are preserved, not
deduplicated, renamed, or errored). -/
theorem duplicate_stems_preserved (pre mid post : List FileStorage) (u v : FileStorage)
    (hu : entrySucceeds u = true) (hv : entrySucceeds v = true)
    (hstem : pathStem (sanitized v) = pathStem (sanitized u)) :
    2 ≤ List.count (successName u)
        (((convert_to_webp (pre ++ u :: mid ++ v :: post)).archive.entries).map Prod.fst) := by
  have hsn : successName v = successName u := by
    unfold successName
    rw [hstem]
  simp only [convert_to_webp_eq]
  have hmap : ((pipeEntries (pre ++ u :: mid ++ v :: post)).map Prod.fst) =
      pipeSuccs (pre ++ u :: mid ++ v :: post) := by
    simp only [pipeEntries, pipeSuccs, List.map_map]
    rfl
  rw [hmap]
  simp [pipeSuccs, List.filter_append, List.filter_cons, hu, hv, List.count_append,
    List.count_cons, hsn]
  omega

/-- Witness for C8: a.jpg and a.JPG both sanitize to stem a and yield two
archive entries named a.webp. -/
theorem duplicate_stems_preserved_witness :
    entrySucceeds (FileStorage.mk (some ("a.jpg")) (Except.ok [1])) = true ∧
    entrySucceeds (FileStorage.mk (some ("a.JPG")) (Except.ok [2])) = true ∧
    2 ≤ List.count (successName (FileStorage.mk (some ("a.jpg")) (Except.ok [1])))
        (((convert_to_webp ([] ++ FileStorage.mk (some ("a.jpg")) (Except.ok [1]) ::
          [] ++ FileStorage.mk (some ("a.JPG")) (Except.ok [2]) ::
            [])).archive.entries).map Prod.fst) :=
  ⟨by decide, by decide,
    duplicate_stems_preserved [] [] []
      (FileStorage.mk (some ("a.jpg")) (Except.ok [1]))
      (FileStorage.mk (some ("a.JPG")) (Except.ok [2]))
      (by decide) (by decide) (by decide)⟩

/-- C9: whatever the mix of successes and failures, the returned archive
has been finalized: the writer is closed when the report is returned. -/
theorem archive_always_finalized (us : List FileStorage) :
    (convert_to_webp us).archive.closed = true := by
  simp only [convert_to_webp_eq]

/-- C10: an entry that passes the extension filter has a non-empty
sanitized filename, so the Unknown placeholder is unreachable in the
decode-failure branch and every decode failure message is the non-empty
sanitized name, a colon, and the error text. -/
theorem accepted_implies_nonempty_name (u : FileStorage) (exc : PyExc)
    (h : entryAccepted u = true) :
    sanitized u ≠ "" ∧ pyOrUnknown (sanitized u) = sanitized u ∧
    (u.decoded = Except.error exc →
      (convert_to_webp [u]).failures = [sanitized u ++ ": " ++ exc.str]) := by
  have hne : sanitized u ≠ "" := by
    intro he
    rw [entryAccepted, he] at h
    exact absurd h (by decide)
  refine ⟨hne, ?_, ?_⟩
  · unfold pyOrUnknown
    rw [if_neg hne]
  · intro hd
    have hsf : entrySucceeds u = false := by
      simp [entrySucceeds, convert_single_stream, hd, exceptOk]
    simp only [convert_to_webp_eq]
    have hmsg : failureMsg u = sanitized u ++ ": " ++ exc.str := by
      unfold failureMsg
      rw [if_neg (by rw [h]; simp)]
      show (match convert_single_stream u with
        | Except.error e => pyOrUnknown (sanitized u) ++ ": " ++ e.str
        | Except.ok _ => pyOrUnknown (sanitized u)) = _
      rw [show convert_single_stream u = Except.error exc from hd]
      unfold pyOrUnknown
      rw [if_neg hne]
    simp [pipeFails, List.filter_cons, hsf, hmsg]

/-- Witness for C10 at a concrete accepted upload whose decode raises: the
message uses the sanitized name, never Unknown. -/
theorem accepted_implies_nonempty_name_witness :
    entryAccepted (FileStorage.mk (some ("a.jpg"))
      (Except.error (PyExc.osError ("truncated file")))) = true ∧
    (FileStorage.mk (some ("a.jpg"))
        (Except.error (PyExc.osError ("truncated file")))).decoded =
      Except.error (PyExc.osError ("truncated file")) ∧
    (convert_to_webp [FileStorage.mk (some ("a.jpg"))
        (Except.error (PyExc.osError ("truncated file")))]).failures =
      [sanitized (FileStorage.mk (some ("a.jpg"))
        (Except.error (PyExc.osError ("truncated file")))) ++ ": " ++
          (PyExc.osError ("truncated file")).str] :=
  ⟨by decide, rfl,
    (accepted_implies_nonempty_name
      (FileStorage.mk (some ("a.jpg")) (Except.error (PyExc.osError ("truncated file"))))
      (PyExc.osError ("truncated file")) (by decide)).2.2 rfl⟩

end WebpApp
